import Mathlib

/-!
Shallow embedding of `midi.py` (micropython-midi): the MIDI channel-voice
message encoding layer.  Python integers become `Int`; the serial byte sink
(`port`, a `pyb.USB_VCP`-like object) becomes an explicit `Port` state holding
the list of bytes written so far together with a failure schedule that models
I/O errors (timeouts) of the external device; raised Python exceptions become
an `Option MidiErr` result component (the port state is kept even on error,
since bytes already sent to the device stay sent).
-/

/-- The distinct exceptions the Python code can raise:
`ValueError` from `MidiInteger.__init__` / `BigMidiInteger.__init__`
(carrying the offending value), `ValueError` from `Controller.__init__`
(bad channel), `ValueError` from `Controller.send_message` (unknown command),
`AttributeError` (attribute lookup on an object lacking it), and an I/O
error (timeout) from `port.send`. -/
inductive MidiErr where
  | rangeError (given : Int)
  | channelRangeError
  | invalidCommand (command : Int)
  | attributeError
  | ioError
deriving DecidableEq, Repr

/-- `MidiInteger.__init__` (midi.py lines 42-48): accepts `0 <= value < 2**7`
and stores `value`; otherwise raises `ValueError`.  The class holds the single
attribute `value`, so the construction is embedded as returning that `Int`. -/
def MidiInteger (value : Int) : Except MidiErr Int :=
  if 0 ≤ value ∧ value < 2 ^ 7 then .ok value
  else .error (.rangeError value)

/-- The two attributes of a constructed `BigMidiInteger`. -/
structure BigMidiInteger where
  msb : Int
  lsb : Int
deriving DecidableEq, Repr

/-- `BigMidiInteger.__init__` (midi.py lines 57-65): accepts
`0 <= value <= 2**14` and stores `msb = value // 2**7`, `lsb = value % 2**7`;
otherwise raises `ValueError`. -/
def BigMidiInteger.new (value : Int) : Except MidiErr BigMidiInteger :=
  if 0 ≤ value ∧ value ≤ 2 ^ 14 then
    .ok { msb := value / 2 ^ 7, lsb := value % 2 ^ 7 }
  else .error (.rangeError value)

/-- The byte sink (`self.port`).  `buf` is the list of bytes successfully
written so far, in order; `sent` counts them; `failAt` is the abstract
behaviour of the external serial device: `send` call number `k` (counting
successful writes) raises an I/O error iff `failAt k` is `true`. -/
structure Port where
  buf : List Int
  sent : Nat
  failAt : Nat → Bool

/-- `port.send(byte, timeout=...)`: either the device times out (error, byte
not written) or the byte is appended to the stream. -/
def Port.send (p : Port) (b : Int) (_timeout : Int) : Port × Option MidiErr :=
  if p.failAt p.sent then (p, some .ioError)
  else ({ p with buf := p.buf ++ [b], sent := p.sent + 1 }, none)

/-- Sequencing of two port-mutating steps with Python exception semantics:
if the first step raised, the second is never executed and the port state
after the first step is kept. -/
def chain (r : Port × Option MidiErr) (k : Port → Port × Option MidiErr) :
    Port × Option MidiErr :=
  match r with
  | (p, none) => k p
  | (p, some e) => (p, some e)

/-- `Controller.__init__` state: the midi channel (validated to `[1,16]` at
construction) and the fixed `timeout` (100).  The `port` is threaded
explicitly through each operation. -/
structure Controller where
  channel : Int
  timeout : Int
deriving DecidableEq, Repr

/-- `Controller.COMMANDS` (midi.py lines 110-118): the seven valid command
status bases. -/
def Controller.COMMANDS : List Int :=
  [0x80, 0x90, 0xA0, 0xB0, 0xC0, 0xD0, 0xE0]

/-- `Controller(port, channel=1)` (midi.py lines 120-127): asserts
`1 <= channel <= 16` (else `ValueError`) and sets `timeout = 100`. -/
def Controller.new (channel : Int := 1) : Except MidiErr Controller :=
  if 1 ≤ channel ∧ channel ≤ 16 then .ok { channel := channel, timeout := 100 }
  else .error .channelRangeError

/-- `Controller.send_message` (midi.py lines 134-143): reject commands outside
`COMMANDS`; add `channel - 1` to the command; then send the status byte,
validate and send `data1`, validate and send `data2`.  Note the source sends
the status byte *before* constructing `MidiInteger(data1)`, so a data range
error leaves the status byte (and possibly `data1`) already written. -/
def Controller.send_message (c : Controller) (p : Port) (command : Int)
    (data1 : Int) (data2 : Int := 0) : Port × Option MidiErr :=
  if command ∈ Controller.COMMANDS then
    chain (p.send (command + (c.channel - 1)) c.timeout) (fun p =>
      match MidiInteger data1 with
      | .error e => (p, some e)
      | .ok d1 =>
        chain (p.send d1 c.timeout) (fun p =>
          match MidiInteger data2 with
          | .error e => (p, some e)
          | .ok d2 => p.send d2 c.timeout))
  else (p, some (.invalidCommand command))

/-- `Controller.note_off` (midi.py lines 145-147). -/
def Controller.note_off (c : Controller) (p : Port) (note : Int)
    (velocity : Int := 0) : Port × Option MidiErr :=
  c.send_message p 0x80 note velocity

/-- `Controller.note_on` (midi.py lines 149-151). -/
def Controller.note_on (c : Controller) (p : Port) (note : Int)
    (velocity : Int := 127) : Port × Option MidiErr :=
  c.send_message p 0x90 note velocity

/-- Python truthiness of an optional integer argument (`if note:` /
`if bank:`): `None` and `0` are both falsy; any other integer is truthy. -/
def truthy : Option Int → Bool
  | none => false
  | some n => n != 0

/-- `Controller.pressure` (midi.py lines 153-159): `if note:` selects the
polyphonic-pressure message, else the channel-pressure message (with the
`data2` slot defaulted to 0).  Note the dispatch uses Python truthiness. -/
def Controller.pressure (c : Controller) (p : Port) (value : Int)
    (note : Option Int := none) : Port × Option MidiErr :=
  if truthy note then c.send_message p 0xA0 (note.getD 0) value
  else c.send_message p 0xD0 value

/-- `Controller.control_change` (midi.py lines 161-163). -/
def Controller.control_change (c : Controller) (p : Port) (control : Int)
    (value : Int) : Port × Option MidiErr :=
  c.send_message p 0xB0 control value

/-- `Controller.program_change` (midi.py lines 165-171): `if bank:` (Python
truthiness) splits the bank via `BigMidiInteger` and sends control changes
32 (lsb) then 0 (msb); in every case the program-change message follows. -/
def Controller.program_change (c : Controller) (p : Port) (value : Int)
    (bank : Option Int := none) : Port × Option MidiErr :=
  if truthy bank then
    match BigMidiInteger.new (bank.getD 0) with
    | .error e => (p, some e)
    | .ok b =>
      chain (c.control_change p 32 b.lsb) (fun p =>
        chain (c.control_change p 0 b.msb) (fun p =>
          c.send_message p 0xC0 value))
  else c.send_message p 0xC0 value

/-- `Controller.pitch_bend` (midi.py lines 173-177): split the value via
`BigMidiInteger`, then `send_message(0xE0, lsb, msb)`. -/
def Controller.pitch_bend (c : Controller) (p : Port)
    (value : Int := 0x2000) : Port × Option MidiErr :=
  match BigMidiInteger.new value with
  | .error e => (p, some e)
  | .ok v => c.send_message p 0xE0 v.lsb v.msb

/-- `Controller.modulation` (midi.py lines 179-186): with `fine=True` the
source does `value = MidiInteger(value)` and then reads `value.lsb` — but
`MidiInteger` instances have only the attribute `value`, so after a
successful range check the attribute lookup raises `AttributeError` before
any `control_change` call is made (argument `value.lsb` is evaluated before
the call).  With `fine=False`: a single `control_change(1, value)`. -/
def Controller.modulation (c : Controller) (p : Port) (value : Int)
    (fine : Bool := false) : Port × Option MidiErr :=
  if fine then
    match MidiInteger value with
    | .error e => (p, some e)
    | .ok _ => (p, some .attributeError)
  else c.control_change p 1 value

/-- `Controller.volume` (midi.py lines 188-195): with `fine=True` split via
`BigMidiInteger`, control change 39 (lsb) then 7 (msb); else single
`control_change(7, value)`. -/
def Controller.volume (c : Controller) (p : Port) (value : Int)
    (fine : Bool := false) : Port × Option MidiErr :=
  if fine then
    match BigMidiInteger.new value with
    | .error e => (p, some e)
    | .ok v =>
      chain (c.control_change p 39 v.lsb) (fun p =>
        c.control_change p 7 v.msb)
  else c.control_change p 7 value

/-- `Controller.all_sound_off` (midi.py lines 197-199). -/
def Controller.all_sound_off (c : Controller) (p : Port) :
    Port × Option MidiErr :=
  c.control_change p 120 0

/-- `Controller.reset_all_controllers` (midi.py lines 201-203). -/
def Controller.reset_all_controllers (c : Controller) (p : Port) :
    Port × Option MidiErr :=
  c.control_change p 121 0

/-- `Controller.local_control` (midi.py lines 205-210). -/
def Controller.local_control (c : Controller) (p : Port) (value : Bool) :
    Port × Option MidiErr :=
  if value then c.control_change p 122 127 else c.control_change p 122 0

/-- `Controller.all_notes_off` (midi.py lines 212-214). -/
def Controller.all_notes_off (c : Controller) (p : Port) :
    Port × Option MidiErr :=
  c.control_change p 123 0

/-- `Controller.panic` (midi.py lines 216-220): `all_sound_off`, then
`reset_all_controllers`, then `all_notes_off`; a raised exception in an
earlier call aborts the later ones. -/
def Controller.panic (c : Controller) (p : Port) : Port × Option MidiErr :=
  chain (c.all_sound_off p) (fun p =>
    chain (c.reset_all_controllers p) (fun p => c.all_notes_off p))

/-- A fresh port whose device never fails: no byte written yet, every send
succeeds. -/
def okPort : Port := { buf := [], sent := 0, failAt := fun _ => false }

/-- A port whose device always fails: every send raises an I/O error. -/
def badPort : Port := { buf := [], sent := 0, failAt := fun _ => true }

/-- The wire-format invariant for a single byte on channel `ch` (1-indexed):
it is an 8-bit value, and if its high bit is set (a MIDI status byte) it is
one of the seven command bases plus the zero-based channel `ch - 1`. -/
def GoodByte (ch b : Int) : Prop :=
  (0 ≤ b ∧ b ≤ 255) ∧
  (0x80 ≤ b → ∃ base, base ∈ Controller.COMMANDS ∧ b = base + (ch - 1))

/-- One invocation of a public `Controller` operation, with its arguments:
used to quantify over every operation of the source. -/
inductive Op where
  | note_off (note velocity : Int)
  | note_on (note velocity : Int)
  | pressure (value : Int) (note : Option Int)
  | control_change (control value : Int)
  | program_change (value : Int) (bank : Option Int)
  | pitch_bend (value : Int)
  | modulation (value : Int) (fine : Bool)
  | volume (value : Int) (fine : Bool)
  | all_sound_off
  | reset_all_controllers
  | local_control (value : Bool)
  | all_notes_off
  | panic
  | send_message (command data1 data2 : Int)

/-- Dispatch an `Op` to the corresponding `Controller` operation. -/
def runOp (c : Controller) (op : Op) (p : Port) : Port × Option MidiErr :=
  match op with
  | .note_off note velocity => c.note_off p note velocity
  | .note_on note velocity => c.note_on p note velocity
  | .pressure value note => c.pressure p value note
  | .control_change control value => c.control_change p control value
  | .program_change value bank => c.program_change p value bank
  | .pitch_bend value => c.pitch_bend p value
  | .modulation value fine => c.modulation p value fine
  | .volume value fine => c.volume p value fine
  | .all_sound_off => c.all_sound_off p
  | .reset_all_controllers => c.reset_all_controllers p
  | .local_control value => c.local_control p value
  | .all_notes_off => c.all_notes_off p
  | .panic => c.panic p
  | .send_message command data1 data2 => c.send_message p command data1 data2

/-- Run a whole sequence of operations, keeping the port state across calls
whether or not each call raised (a caller may catch the exception and keep
using the controller). -/
def runOps (c : Controller) (ops : List Op) (p : Port) : Port :=
  match ops with
  | [] => p
  | op :: rest => runOps c rest (runOp c op p).1

/-- `r` (the outcome of an operation started at port `p`) only appended bytes
satisfying the channel-`ch` wire invariant. -/
def AppendsGood (ch : Int) (p : Port) (r : Port × Option MidiErr) : Prop :=
  ∃ ext, r.1.buf = p.buf ++ ext ∧ ∀ b ∈ ext, GoodByte ch b

lemma Controller.new_ok {c : Int} {ctrl : Controller}
    (h : Controller.new c = Except.ok ctrl) :
    ctrl = ⟨c, 100⟩ ∧ 1 ≤ c ∧ c ≤ 16 := by
  unfold Controller.new at h
  split at h
  · rename_i hc
    injection h with h
    exact ⟨h.symm, hc.1, hc.2⟩
  · exact Except.noConfusion h

lemma midiInteger_ok {v w : Int} (h : MidiInteger v = Except.ok w) :
    w = v ∧ 0 ≤ v ∧ v ≤ 127 := by
  unfold MidiInteger at h
  split at h
  · rename_i hv
    injection h with h
    exact ⟨h.symm, hv.1, by omega⟩
  · exact Except.noConfusion h

/-- **C7** — `MidiInteger` construction succeeds iff `0 ≤ v ≤ 127`, stores
exactly `v` on success, and raises a range error (carrying `v`) otherwise. -/
theorem C7_midi7 (v : Int) :
    (0 ≤ v ∧ v ≤ 127 → MidiInteger v = Except.ok v) ∧
    (¬ (0 ≤ v ∧ v ≤ 127) → MidiInteger v = Except.error (.rangeError v)) ∧
    (∀ w, MidiInteger v = Except.ok w → w = v ∧ 0 ≤ v ∧ v ≤ 127) := by
  refine ⟨fun h => ?_, fun h => ?_, fun w hw => midiInteger_ok hw⟩
  · unfold MidiInteger
    rw [if_pos (by omega)]
  · unfold MidiInteger
    rw [if_neg (by omega)]

theorem C7_midi7_witness :
    MidiInteger 5 = Except.ok 5 ∧
    MidiInteger 200 = Except.error (MidiErr.rangeError 200) :=
  ⟨(C7_midi7 5).1 (by norm_num), (C7_midi7 200).2.1 (by norm_num)⟩

/-- **C2 (counterexample)** — at the accepted boundary input 16384,
`BigMidiInteger` yields `msb = 128`, violating the claimed `msb ≤ 127`. -/
theorem C2_counterexample :
    BigMidiInteger.new 16384 = Except.ok ⟨128, 0⟩ ∧ ¬ (128 : Int) ≤ 127 :=
  ⟨by rfl, by decide⟩

/-- **C2 (amended)** — for `v` in `[0,16384]` construction succeeds with
`msb = v / 128`, `lsb = v % 128`, `msb*128 + lsb = v`, `0 ≤ lsb ≤ 127` and
`0 ≤ msb ≤ 128`; `msb ≤ 127` holds for `v ≤ 16383` (at `v = 16384`,
`msb = 128`); for `v` outside `[0,16384]` construction fails with a range
error. -/
theorem C2_midi14 (v : Int) :
    (0 ≤ v ∧ v ≤ 16384 →
      BigMidiInteger.new v = Except.ok ⟨v / 128, v % 128⟩ ∧
      (v / 128) * 128 + v % 128 = v ∧
      0 ≤ v % 128 ∧ v % 128 ≤ 127 ∧ 0 ≤ v / 128 ∧ v / 128 ≤ 128) ∧
    (0 ≤ v ∧ v ≤ 16383 → v / 128 ≤ 127) ∧
    (¬ (0 ≤ v ∧ v ≤ 16384) →
      BigMidiInteger.new v = Except.error (.rangeError v)) := by
  refine ⟨fun h => ⟨?_, by omega, by omega, by omega, by omega, by omega⟩,
    fun h => by omega, fun h => ?_⟩
  · unfold BigMidiInteger.new
    rw [if_pos (by norm_num; omega)]
    norm_num
  · unfold BigMidiInteger.new
    rw [if_neg (by norm_num; omega)]

theorem C2_midi14_witness :
    BigMidiInteger.new 300 = Except.ok ⟨2, 44⟩ ∧
    BigMidiInteger.new 20000 = Except.error (MidiErr.rangeError 20000) :=
  ⟨((C2_midi14 300).1 (by norm_num)).1.trans (by rfl),
   (C2_midi14 20000).2.2 (by norm_num)⟩

/-- **C1** — for every channel `c` in `[1,16]` and note `n` in `[0,127]`,
`note_on(n)` (velocity defaulted to 127) on a Controller constructed with
channel `c` writes exactly the three bytes `[0x90 + (c-1), n, 127]` to the
sink, in that order, and nothing else. -/
theorem C1_note_on (c n : Int) (ctrl : Controller) (p : Port)
    (hc : Controller.new c = Except.ok ctrl) (hn0 : 0 ≤ n) (hn1 : n ≤ 127)
    (hp : ∀ k, p.failAt k = false) :
    ctrl.note_on p n =
      ({ p with
          buf := p.buf ++ [0x90 + (c - 1), n, 127]
          sent := p.sent + 3 }, none) := by
  obtain ⟨rfl, hc1, hc2⟩ := Controller.new_ok hc
  simp [Controller.note_on, Controller.send_message, Controller.COMMANDS,
    Port.send, chain, MidiInteger, hp, hn0,
    show n < 128 from by omega]

theorem C1_note_on_witness :
    (Controller.mk 1 100).note_on okPort 60 =
      ({ okPort with
          buf := okPort.buf ++ [0x90 + (1 - 1), 60, 127]
          sent := okPort.sent + 3 }, none) :=
  C1_note_on 1 60 (Controller.mk 1 100) okPort (by rfl) (by norm_num)
    (by norm_num) (fun _ => rfl)

/-- **C3 (counterexample)** — on a freshly constructed channel-1 Controller
and an empty sink, `send_message(0x90, 200, 0)` raises a range error but the
status byte `0x90` has already been written: the sink is *not* unchanged on a
validation error. -/
theorem C3_counterexample :
    Controller.new 1 = Except.ok (Controller.mk 1 100) ∧
    ((Controller.mk 1 100).send_message okPort 0x90 200 0).2 =
      some (MidiErr.rangeError 200) ∧
    ((Controller.mk 1 100).send_message okPort 0x90 200 0).1.buf = [0x90] ∧
    okPort.buf = [] :=
  ⟨by rfl, by decide, by decide, rfl⟩

/-- **C3 (amended)** — for every valid command, if `data1` is outside
`[0,127]` then `send_message` raises a range error with exactly the status
byte already written; if `data1` is in range and `data2` is outside `[0,127]`
it raises with the status byte and `data1` written.  (The range error never
lets the offending byte itself reach the wire, but the bytes sent before the
failing validation remain written.) -/
theorem C3_partial_write (c cmd d1 d2 : Int) (ctrl : Controller) (p : Port)
    (hc : Controller.new c = Except.ok ctrl) (hcmd : cmd ∈ Controller.COMMANDS)
    (hp : ∀ k, p.failAt k = false) :
    (¬ (0 ≤ d1 ∧ d1 ≤ 127) →
      ctrl.send_message p cmd d1 d2 =
        ({ p with buf := p.buf ++ [cmd + (c - 1)], sent := p.sent + 1 },
         some (MidiErr.rangeError d1))) ∧
    ((0 ≤ d1 ∧ d1 ≤ 127) → ¬ (0 ≤ d2 ∧ d2 ≤ 127) →
      ctrl.send_message p cmd d1 d2 =
        ({ p with buf := p.buf ++ [cmd + (c - 1), d1], sent := p.sent + 2 },
         some (MidiErr.rangeError d2))) := by
  obtain ⟨rfl, hc1, hc2⟩ := Controller.new_ok hc
  constructor
  · intro hd1
    have h1 : MidiInteger d1 = Except.error (.rangeError d1) := by
      unfold MidiInteger
      rw [if_neg (by omega)]
    simp [Controller.send_message, hcmd, Port.send, chain, hp, h1]
  · intro hd1 hd2
    have h1 : MidiInteger d1 = Except.ok d1 := by
      unfold MidiInteger
      rw [if_pos (by omega)]
    have h2 : MidiInteger d2 = Except.error (.rangeError d2) := by
      unfold MidiInteger
      rw [if_neg (by omega)]
    simp [Controller.send_message, hcmd, Port.send, chain, hp, h1, h2]

theorem C3_partial_write_witness :
    (Controller.mk 1 100).send_message okPort 0x90 200 0 =
      ({ okPort with
          buf := okPort.buf ++ [0x90 + (1 - 1)]
          sent := okPort.sent + 1 }, some (MidiErr.rangeError 200)) :=
  (C3_partial_write 1 0x90 200 0 (Controller.mk 1 100) okPort (by rfl)
    (by norm_num [Controller.COMMANDS]) (fun _ => rfl)).1 (by norm_num)

/-- **C10** — at the accepted boundary input 16384, `BigMidiInteger` yields
`msb = 128`, and `pitch_bend(16384)` raises a range error only after the
status byte `0xE0 + (c-1)` and the lsb byte `0` have been written: a two-byte
partial write on a validation failure. -/
theorem C10_pitch_bend_boundary (c : Int) (ctrl : Controller) (p : Port)
    (hc : Controller.new c = Except.ok ctrl) (hp : ∀ k, p.failAt k = false) :
    BigMidiInteger.new 16384 = Except.ok ⟨128, 0⟩ ∧
    ctrl.pitch_bend p 16384 =
      ({ p with buf := p.buf ++ [0xE0 + (c - 1), 0], sent := p.sent + 2 },
       some (MidiErr.rangeError 128)) := by
  obtain ⟨rfl, hc1, hc2⟩ := Controller.new_ok hc
  refine ⟨by rfl, ?_⟩
  simp [Controller.pitch_bend,
    show BigMidiInteger.new 16384 = Except.ok ⟨128, 0⟩ from rfl,
    Controller.send_message, Controller.COMMANDS, Port.send, chain,
    MidiInteger, hp]

theorem C10_pitch_bend_boundary_witness :
    BigMidiInteger.new 16384 = Except.ok ⟨128, 0⟩ ∧
    (Controller.mk 1 100).pitch_bend okPort 16384 =
      ({ okPort with
          buf := okPort.buf ++ [0xE0 + (1 - 1), 0]
          sent := okPort.sent + 2 }, some (MidiErr.rangeError 128)) :=
  C10_pitch_bend_boundary 1 (Controller.mk 1 100) okPort (by rfl)
    (fun _ => rfl)

/-- **C4** — `program_change(5, bank=0)` on channel 1: the provided bank 0 is
falsy under the source's `if bank:` test, so *no* bank-select messages are
written — only the single program-change message `[0xC0, 5, 0]` — refuting
"writes exactly three messages" for every provided bank in `[0,16383]`.
For a truthy bank such as 300 the three messages do appear in the claimed
order `[0xB0,32,44]`, `[0xB0,0,2]`, `[0xC0,5,0]`. -/
theorem C4_bank_zero :
    Controller.new 1 = Except.ok (Controller.mk 1 100) ∧
    ((Controller.mk 1 100).program_change okPort 5 (some 0)).1.buf =
      [0xC0, 5, 0] ∧
    ((Controller.mk 1 100).program_change okPort 5 (some 0)).2 = none ∧
    ((Controller.mk 1 100).program_change okPort 5 (some 300)).1.buf =
      [0xB0, 32, 44, 0xB0, 0, 2, 0xC0, 5, 0] ∧
    ((Controller.mk 1 100).program_change okPort 5 (some 300)).2 = none :=
  ⟨by rfl, by decide, by decide, by decide, by decide⟩

/-- **C5** — `pressure(10, note=0)` on channel 1: the provided note 0 is
falsy under the source's `if note:` test, so the *channel*-pressure message
`[0xD0, 10, 0]` is sent instead of the claimed poly-pressure message
`[0xA0, 0, 10]`: the dispatch does not depend only on whether `note` was
provided.  For a nonzero note (60) and for an absent note the claimed
messages are produced. -/
theorem C5_note_zero :
    ((Controller.mk 1 100).pressure okPort 10 (some 0)).1.buf =
      [0xD0, 10, 0] ∧
    ((Controller.mk 1 100).pressure okPort 10 (some 0)).1.buf ≠
      [0xA0, 0, 10] ∧
    ((Controller.mk 1 100).pressure okPort 10 (some 0)).2 = none ∧
    ((Controller.mk 1 100).pressure okPort 10 (some 60)).1.buf =
      [0xA0, 60, 10] ∧
    ((Controller.mk 1 100).pressure okPort 10 none).1.buf =
      [0xD0, 10, 0] :=
  ⟨by decide, by decide, by decide, by decide, by decide⟩

/-- **C6** — `modulation(5, fine=True)` on channel 1 raises `AttributeError`
(the source wraps the value in `MidiInteger`, which has no `lsb`/`msb`
attribute) and writes no bytes at all, refuting "sends exactly two
control-change messages"; `modulation(5, fine=False)` does send the single
controller-1 message `[0xB0, 1, 5]`. -/
theorem C6_modulation_fine :
    ((Controller.mk 1 100).modulation okPort 5 true).2 =
      some MidiErr.attributeError ∧
    ((Controller.mk 1 100).modulation okPort 5 true).1.buf = [] ∧
    ((Controller.mk 1 100).modulation okPort 5 false).1.buf = [0xB0, 1, 5] ∧
    ((Controller.mk 1 100).modulation okPort 5 false).2 = none :=
  ⟨by decide, by decide, by decide, by decide⟩

lemma chain_err {r : Port × Option MidiErr} {e : MidiErr}
    (k : Port → Port × Option MidiErr) (h : r.2 = some e) : chain r k = r := by
  obtain ⟨q, o⟩ := r
  cases o with
  | none => exact Option.noConfusion h
  | some e => rfl

/-- **C8** — `panic()` issues exactly the three control-change messages for
controllers 120, 121, 123, each with value 0, in that order (nine bytes on a
failure-free sink); if the first sub-message raises, `panic` returns exactly
that sub-message's outcome (no later sub-message attempted, no further
bytes); likewise if the first succeeds and the second raises. -/
theorem C8_panic (c : Int) (ctrl : Controller) (p : Port)
    (hc : Controller.new c = Except.ok ctrl) :
    ((∀ k, p.failAt k = false) →
      ctrl.panic p =
        ({ p with
            buf := p.buf ++ [0xB0 + (c - 1), 120, 0, 0xB0 + (c - 1), 121, 0,
              0xB0 + (c - 1), 123, 0]
            sent := p.sent + 9 }, none)) ∧
    (∀ e, (ctrl.all_sound_off p).2 = some e →
      ctrl.panic p = ctrl.all_sound_off p) ∧
    (∀ p1 e, ctrl.all_sound_off p = (p1, none) →
      (ctrl.reset_all_controllers p1).2 = some e →
      ctrl.panic p = ctrl.reset_all_controllers p1) := by
  obtain ⟨rfl, hc1, hc2⟩ := Controller.new_ok hc
  refine ⟨fun hp => ?_, fun e he => ?_, fun p1 e h1 h2 => ?_⟩
  · simp [Controller.panic, Controller.all_sound_off,
      Controller.reset_all_controllers, Controller.all_notes_off,
      Controller.control_change, Controller.send_message, Controller.COMMANDS,
      Port.send, chain, MidiInteger, hp]
  · unfold Controller.panic
    exact chain_err _ he
  · unfold Controller.panic
    rw [h1]
    exact chain_err _ h2

theorem C8_panic_witness :
    (Controller.mk 1 100).panic okPort =
      ({ okPort with
          buf := okPort.buf ++ [0xB0 + (1 - 1), 120, 0, 0xB0 + (1 - 1), 121,
            0, 0xB0 + (1 - 1), 123, 0]
          sent := okPort.sent + 9 }, none) ∧
    (Controller.mk 1 100).panic badPort =
      (Controller.mk 1 100).all_sound_off badPort :=
  ⟨(C8_panic 1 (Controller.mk 1 100) okPort (by rfl)).1 (fun _ => rfl),
   (C8_panic 1 (Controller.mk 1 100) badPort (by rfl)).2.1 MidiErr.ioError
     (by decide)⟩

lemma appendsGood_same (ch : Int) (p : Port) (o : Option MidiErr) :
    AppendsGood ch p (p, o) :=
  ⟨[], by simp, by simp⟩

lemma goodByte_data {ch d : Int} (h0 : 0 ≤ d) (h1 : d ≤ 127) :
    GoodByte ch d :=
  ⟨⟨by omega, by omega⟩, fun hge => absurd hge (by omega)⟩

lemma goodByte_status {ch cmd : Int} (h : cmd ∈ Controller.COMMANDS)
    (h1 : 1 ≤ ch) (h2 : ch ≤ 16) : GoodByte ch (cmd + (ch - 1)) := by
  constructor
  · simp [Controller.COMMANDS] at h
    rcases h with rfl | rfl | rfl | rfl | rfl | rfl | rfl <;>
      exact ⟨by omega, by omega⟩
  · exact fun _ => ⟨cmd, h, rfl⟩

lemma appendsGood_send (ch : Int) (p : Port) (b t : Int)
    (hb : GoodByte ch b) : AppendsGood ch p (p.send b t) := by
  unfold Port.send
  split
  · exact appendsGood_same _ _ _
  · exact ⟨[b], by simp, by simpa using hb⟩

lemma appendsGood_chain {ch : Int} {p : Port} {r : Port × Option MidiErr}
    {k : Port → Port × Option MidiErr}
    (h1 : AppendsGood ch p r) (h2 : ∀ q, AppendsGood ch q (k q)) :
    AppendsGood ch p (chain r k) := by
  obtain ⟨q, o⟩ := r
  cases o with
  | some e => exact h1
  | none =>
    obtain ⟨e1, hb1, hg1⟩ := h1
    obtain ⟨e2, hb2, hg2⟩ := h2 q
    refine ⟨e1 ++ e2, ?_, ?_⟩
    · show (k q).1.buf = p.buf ++ (e1 ++ e2)
      simp only at hb1
      rw [hb2, hb1, List.append_assoc]
    · intro b hb
      rcases List.mem_append.mp hb with h | h
      · exact hg1 b h
      · exact hg2 b h

lemma appendsGood_send_message (c : Controller) (h1 : 1 ≤ c.channel)
    (h2 : c.channel ≤ 16) (cmd d1 d2 : Int) (p : Port) :
    AppendsGood c.channel p (c.send_message p cmd d1 d2) := by
  unfold Controller.send_message
  split
  · rename_i hcmd
    apply appendsGood_chain
      (appendsGood_send _ _ _ _ (goodByte_status hcmd h1 h2))
    intro q
    cases hm1 : MidiInteger d1 with
    | error e => exact appendsGood_same _ _ _
    | ok v1 =>
      obtain ⟨rfl, hv0, hv1⟩ := midiInteger_ok hm1
      apply appendsGood_chain
        (appendsGood_send _ _ _ _ (goodByte_data hv0 hv1))
      intro q2
      cases hm2 : MidiInteger d2 with
      | error e => exact appendsGood_same _ _ _
      | ok v2 =>
        obtain ⟨rfl, hw0, hw1⟩ := midiInteger_ok hm2
        exact appendsGood_send _ _ _ _ (goodByte_data hw0 hw1)
  · exact appendsGood_same _ _ _

lemma appendsGood_runOp (c : Controller) (h1 : 1 ≤ c.channel)
    (h2 : c.channel ≤ 16) (op : Op) (p : Port) :
    AppendsGood c.channel p (runOp c op p) := by
  have hsm := appendsGood_send_message c h1 h2
  cases op with
  | note_off note velocity => exact hsm _ _ _ _
  | note_on note velocity => exact hsm _ _ _ _
  | pressure value note =>
    show AppendsGood _ _ (c.pressure p value note)
    unfold Controller.pressure
    split
    · exact hsm _ _ _ _
    · exact hsm _ _ _ _
  | control_change control value => exact hsm _ _ _ _
  | program_change value bank =>
    show AppendsGood _ _ (c.program_change p value bank)
    unfold Controller.program_change Controller.control_change
    split
    · cases BigMidiInteger.new (bank.getD 0) with
      | error e => exact appendsGood_same _ _ _
      | ok b =>
        apply appendsGood_chain (hsm _ _ _ _)
        intro q
        apply appendsGood_chain (hsm _ _ _ _)
        intro q2
        exact hsm _ _ _ _
    · exact hsm _ _ _ _
  | pitch_bend value =>
    show AppendsGood _ _ (c.pitch_bend p value)
    unfold Controller.pitch_bend
    cases BigMidiInteger.new value with
    | error e => exact appendsGood_same _ _ _
    | ok v => exact hsm _ _ _ _
  | modulation value fine =>
    show AppendsGood _ _ (c.modulation p value fine)
    unfold Controller.modulation
    split
    · cases MidiInteger value with
      | error e => exact appendsGood_same _ _ _
      | ok v => exact appendsGood_same _ _ _
    · exact hsm _ _ _ _
  | volume value fine =>
    show AppendsGood _ _ (c.volume p value fine)
    unfold Controller.volume Controller.control_change
    split
    · cases BigMidiInteger.new value with
      | error e => exact appendsGood_same _ _ _
      | ok v =>
        apply appendsGood_chain (hsm _ _ _ _)
        intro q
        exact hsm _ _ _ _
    · exact hsm _ _ _ _
  | all_sound_off => exact hsm _ _ _ _
  | reset_all_controllers => exact hsm _ _ _ _
  | local_control value =>
    show AppendsGood _ _ (c.local_control p value)
    unfold Controller.local_control
    split
    · exact hsm _ _ _ _
    · exact hsm _ _ _ _
  | all_notes_off => exact hsm _ _ _ _
  | panic =>
    show AppendsGood _ _ (c.panic p)
    unfold Controller.panic Controller.all_sound_off
      Controller.reset_all_controllers Controller.all_notes_off
      Controller.control_change
    apply appendsGood_chain (hsm _ _ _ _)
    intro q
    apply appendsGood_chain (hsm _ _ _ _)
    intro q2
    exact hsm _ _ _ _
  | send_message command data1 data2 => exact hsm _ _ _ _

lemma runOps_good (c : Controller) (h1 : 1 ≤ c.channel)
    (h2 : c.channel ≤ 16) :
    ∀ (ops : List Op) (p : Port), (∀ b ∈ p.buf, GoodByte c.channel b) →
      ∀ b ∈ (runOps c ops p).buf, GoodByte c.channel b := by
  intro ops
  induction ops with
  | nil => exact fun p hp b hb => hp b hb
  | cons op rest ih =>
    intro p hp b hb
    refine ih (runOp c op p).1 (fun b' hb' => ?_) b hb
    obtain ⟨ext, hbuf, hg⟩ := appendsGood_runOp c h1 h2 op p
    rw [hbuf] at hb'
    rcases List.mem_append.mp hb' with h | h
    · exact hp b' h
    · exact hg b' h

/-- **C9** — invariant over every Controller operation: starting from an
empty sink, after any sequence of operations on a Controller constructed
with channel `c` (arguments and device failures arbitrary), every byte ever
written to the sink lies in `[0,255]`, and every status byte written (high
bit set) equals one of the seven command bases plus the zero-based channel
`c - 1`. -/
theorem C9_invariant (ops : List Op) (c : Int) (ctrl : Controller) (p : Port)
    (hc : Controller.new c = Except.ok ctrl) (hbuf : p.buf = []) :
    ∀ b ∈ (runOps ctrl ops p).buf,
      (0 ≤ b ∧ b ≤ 255) ∧
      (0x80 ≤ b → ∃ base, base ∈ Controller.COMMANDS ∧
        b = base + (c - 1)) := by
  obtain ⟨rfl, hc1, hc2⟩ := Controller.new_ok hc
  exact runOps_good ⟨c, 100⟩ hc1 hc2 ops p (by simp [hbuf])

theorem C9_invariant_witness :
    ((0 ≤ (144 : Int) ∧ (144 : Int) ≤ 255) ∧
      (0x80 ≤ (144 : Int) → ∃ base, base ∈ Controller.COMMANDS ∧
        (144 : Int) = base + (1 - 1))) :=
  C9_invariant [Op.note_on 60 127] 1 (Controller.mk 1 100) okPort (by rfl)
    rfl 144 (by decide)
